import Mathlib

/-
  Verification of the nanofish HTTP server core (src/server.rs).

  The repository code under verification is `src/server.rs`: the
  `ServerTimeouts` configuration, the `serve` connection loop and
  `handle_connection`.  The request parser (`HttpRequest::try_from`), the
  response types (`HttpResponse`, `ResponseBody`, `StatusCode`,
  `HttpHeader`, `Error`) and the response serializer
  (`HttpResponse::build_bytes`) live in sibling modules of the same
  repository that are not part of the provided sources; those are modelled
  from the specification (sections 3, 4.1, 4.2), each marked
  `Modelled from the spec:` in its doc comment.  Everything about the
  control flow of `serve` and `handle_connection` follows `src/server.rs`
  line by line.

  Byte buffers exchanged with the socket are modelled as `String`
  (ASCII), with the character-level work done on `List Char` by
  structurally recursive helpers; the fixed request buffer of `serve` is
  modelled as `List Nat` (one `Nat` per byte) where its reuse across
  connections matters.
-/

set_option maxRecDepth 8192

set_option linter.unusedVariables false

namespace Nanofish

/-- Modelled from the spec: the connection phases (glossary: one of
accept, read, handle), used by the `Timeout` error kind. -/
inductive Phase where
  | accept
  | read
  | handle
deriving DecidableEq, Repr

/-- Modelled from the spec: the closed `ErrorKind` taxonomy of section 3
(the `Error` type of the repository's `error` module): ParseError,
Overflow, Transport, HandlerFailure, Timeout(phase). -/
inductive Error where
  | ParseError
  | Overflow
  | Transport
  | HandlerFailure
  | Timeout (phase : Phase)
deriving DecidableEq, Repr

/-- Modelled from the spec: an HTTP header is a name/value pair
(section 3, `HttpHeader`). -/
structure HttpHeader where
  name : String
  value : String
deriving DecidableEq, Repr

/-- `HttpHeader::new(name, value)`. -/
def HttpHeader.new (name value : String) : HttpHeader :=
  { name := name, value := value }

/-- Modelled from the spec: the closed `StatusCode` enumeration
(section 3); only the codes the server core uses are listed. -/
inductive StatusCode where
  | OK
  | BadRequest
  | NotFound
  | InternalServerError
deriving DecidableEq, Repr

/-- The numeric HTTP status for each `StatusCode`. -/
def StatusCode.code : StatusCode → Nat
  | .OK => 200
  | .BadRequest => 400
  | .NotFound => 404
  | .InternalServerError => 500

/-- The standard HTTP/1.1 reason phrase for each `StatusCode`. -/
def StatusCode.reason_phrase : StatusCode → String
  | .OK => "OK"
  | .BadRequest => "Bad Request"
  | .NotFound => "Not Found"
  | .InternalServerError => "Internal Server Error"

/-- Modelled from the spec: the response body variants of section 3:
Empty, Text(bounded string), Bytes(bounded slice). -/
inductive ResponseBody where
  | Empty
  | Text (s : String)
  | Bytes (b : List Nat)
deriving DecidableEq, Repr

/-- The byte length of a response body (Empty has length 0). -/
def ResponseBody.len : ResponseBody → Nat
  | .Empty => 0
  | .Text s => s.length
  | .Bytes b => b.length

/-- The body bytes, rendered as an ASCII string. -/
def ResponseBody.render : ResponseBody → String
  | .Empty => ""
  | .Text s => s
  | .Bytes b => String.mk (b.map Char.ofNat)

/-- Modelled from the spec: `HttpResponse` (section 3): status code,
ordered headers, body variant.  Field names follow `server.rs`, which
constructs values with fields `status_code`, `headers`, `body`. -/
structure HttpResponse where
  status_code : StatusCode
  headers : List HttpHeader
  body : ResponseBody
deriving DecidableEq, Repr

/-- Modelled from the spec: the enumerated request-method set of
section 3 (GET, POST, PUT, DELETE, ...). -/
inductive HttpMethod where
  | GET
  | POST
  | PUT
  | DELETE
  | PATCH
  | HEAD
  | OPTIONS
deriving DecidableEq, Repr

/-- Recognize a method token against the closed set; an unrecognized
method is a terminal ParseError in the parser (spec section 4.1). -/
def parseMethod : String → Option HttpMethod
  | "GET" => some .GET
  | "POST" => some .POST
  | "PUT" => some .PUT
  | "DELETE" => some .DELETE
  | "PATCH" => some .PATCH
  | "HEAD" => some .HEAD
  | "OPTIONS" => some .OPTIONS
  | _ => none

/-- Modelled from the spec: `HttpRequest` (section 3): method, path,
ordered headers, body (the bytes after the header terminator, verbatim). -/
structure HttpRequest where
  method : HttpMethod
  path : String
  headers : List HttpHeader
  body : String
deriving DecidableEq, Repr

/-- Split a character list at the first occurrence of the sub-list
`sep`, returning the part before it and the part after it; `none` when
`sep` does not occur. -/
def splitFirstSub (sep : List Char) : List Char → Option (List Char × List Char)
  | [] => none
  | c :: cs =>
    if sep.isPrefixOf (c :: cs) then some ([], (c :: cs).drop sep.length)
    else
      match splitFirstSub sep cs with
      | none => none
      | some (pre, post) => some (c :: pre, post)

/-- Split a character list into the segments separated by CRLF. -/
def splitCRLF : List Char → List (List Char)
  | [] => [[]]
  | '\r' :: '\n' :: rest => [] :: splitCRLF rest
  | c :: rest =>
    match splitCRLF rest with
    | [] => [[c]]
    | l :: ls => (c :: l) :: ls

/-- Split a character list into the segments separated by `sep`. -/
def splitChar (sep : Char) : List Char → List (List Char)
  | [] => [[]]
  | c :: rest =>
    if c = sep then [] :: splitChar sep rest
    else
      match splitChar sep rest with
      | [] => [[c]]
      | l :: ls => (c :: l) :: ls

/-- Split a character list at the first occurrence of the character
`sep`; `none` when `sep` does not occur. -/
def splitFirstChar (sep : Char) : List Char → Option (List Char × List Char)
  | [] => none
  | c :: cs =>
    if c = sep then some ([], cs)
    else
      match splitFirstChar sep cs with
      | none => none
      | some (pre, post) => some (c :: pre, post)

/-- Drop leading space characters. -/
def dropSpaces : List Char → List Char
  | ' ' :: rest => dropSpaces rest
  | l => l

/-- Modelled from the spec: the fixed header capacity of the parser
(section 4.1: header count exceeding the fixed capacity is an
Overflow-class error). -/
def MAX_HEADERS : Nat := 16

/-- Modelled from the spec: one header line must contain a name/value
separator, else ParseError (section 4.1); the header name is non-empty
(section 3); the value is the text after the first separator, with
leading spaces dropped. -/
def parseHeaderLine (line : List Char) : Except Error HttpHeader :=
  match splitFirstChar ':' line with
  | none => .error .ParseError
  | some (name, value) =>
    if name.isEmpty then .error .ParseError
    else .ok (HttpHeader.new (String.mk name) (String.mk (dropSpaces value)))

/-- Parse the header lines in order (spec section 4.1). -/
def parseHeaderLines : List (List Char) → Except Error (List HttpHeader)
  | [] => .ok []
  | line :: rest =>
    match parseHeaderLine line with
    | .error e => .error e
    | .ok h =>
      match parseHeaderLines rest with
      | .error e => .error e
      | .ok hs => .ok (h :: hs)

/-- The CRLF CRLF header-block terminator. -/
def headerTerminator : List Char := ['\r', '\n', '\r', '\n']

/-- Modelled from the spec: `HttpRequest::try_from` (section 4.1): split
the request line (method, path, version) from the header block; the
header block ends at the empty line (CRLF CRLF), else ParseError;
unrecognized method or empty path is a ParseError; more than
`MAX_HEADERS` headers is an Overflow error; everything after the header
terminator is the body verbatim. -/
def HttpRequest.try_from (buffer : String) : Except Error HttpRequest :=
  match splitFirstSub headerTerminator buffer.data with
  | none => .error .ParseError
  | some (headBlock, bodyChars) =>
    match splitCRLF headBlock with
    | [] => .error .ParseError
    | requestLine :: headerLines =>
      match splitChar ' ' requestLine with
      | [m, p, _version] =>
        match parseMethod (String.mk m) with
        | none => .error .ParseError
        | some method =>
          if p.isEmpty then .error .ParseError
          else
            match parseHeaderLines headerLines with
            | .error e => .error e
            | .ok hs =>
              if hs.length > MAX_HEADERS then .error .Overflow
              else .ok { method := method, path := String.mk p,
                         headers := hs, body := String.mk bodyChars }
      | _ => .error .ParseError

/-- Modelled from the spec: `HttpResponse::build_bytes` (section 4.2):
the status line, each header line in insertion order, a Content-Length
header consistent with the body variant, a blank line, then the body
bytes.  At its call sites in `handle_connection` (server.rs:184, 195,
199) `build_bytes::<MAX_RESPONSE_SIZE>()` returns a plain byte vector —
not a `Result` — so at the type seen by the server core it cannot fail;
the serialization is therefore modelled as a total function, and the
capacity parameter of the call site is carried separately by
`handle_connection`. -/
def HttpResponse.build_bytes (r : HttpResponse) : String :=
  "HTTP/1.1 " ++ toString r.status_code.code ++ " " ++ r.status_code.reason_phrase ++ "\r\n"
    ++ String.join (r.headers.map (fun h => h.name ++ ": " ++ h.value ++ "\r\n"))
    ++ "Content-Length: " ++ toString r.body.len ++ "\r\n\r\n"
    ++ r.body.render

/-- Modelled from the spec: the fail-closed Builder contract of
sections 4.2 and 8 stated in the spec's own words — if the serialized
size would exceed the capacity, fail with an Overflow error and write
nothing; otherwise produce the serialized bytes.  This definition
exists to compare the spec's contract with the code's call sites; the
code path in `handle_connection` does not go through it. -/
def build_bytes_checked (r : HttpResponse) (maxResponseSize : Nat) : Except Error String :=
  if r.build_bytes.length > maxResponseSize then .error .Overflow
  else .ok r.build_bytes

/-- The synthesized handler-error response of server.rs:177-183:
status 500, a single Content-Type: text/plain header, body
"Internal Server Error". -/
def handlerErrorResponse : HttpResponse :=
  { status_code := .InternalServerError,
    headers := [HttpHeader.new "Content-Type" "text/plain"],
    body := .Text "Internal Server Error" }

/-- The synthesized handler-timeout response of server.rs:188-194:
status 400, a single Content-Type: text/plain header, body
"Request Timeout". -/
def handlerTimeoutResponse : HttpResponse :=
  { status_code := .BadRequest,
    headers := [HttpHeader.new "Content-Type" "text/plain"],
    body := .Text "Request Timeout" }

/-- The outcome of `with_timeout(handler_timeout, handler.handle_request(..))`
at server.rs:168-173: `Ok(Ok(r))`, `Ok(Err(e))`, or `Err(TimeoutError)`.
The handler and the timer are external collaborators, so a connection's
outcome is an oracle mapping the parsed request to one of the three. -/
inductive HandlerOutcome where
  | success (r : HttpResponse)
  | failure
  | timeout

/-- The structured response `handle_connection` serializes for a given
handler outcome (server.rs:174-199): the handler's own response on
success, the synthesized 500 on handler failure, the synthesized 400 on
handler timeout. -/
def dispatchResponse : HandlerOutcome → HttpResponse
  | .success r => r
  | .failure => handlerErrorResponse
  | .timeout => handlerTimeoutResponse

/-- `handle_connection` (server.rs:156-200): parse the request with
`HttpRequest::try_from` (`?` propagates its error); then serialize the
handler's response, or the synthesized 500 on handler failure, or the
synthesized 400 on handler timeout — each wrapped in `Ok`.
`maxResponseSize` mirrors the `MAX_RESPONSE_SIZE` const generic of the
return type `Result<Vec<u8, MAX_RESPONSE_SIZE>, Error>`; no code in
`handle_connection` consults it. -/
def handle_connection (buffer : String) (outcome : HttpRequest → HandlerOutcome)
    (maxResponseSize : Nat) : Except Error String :=
  match HttpRequest.try_from buffer with
  | .error e => .error e
  | .ok request =>
    match outcome request with
    | .success r => .ok r.build_bytes
    | .failure => .ok handlerErrorResponse.build_bytes
    | .timeout => .ok handlerTimeoutResponse.build_bytes

/-- The hard-coded fallback written at server.rs:146 when
`handle_connection` returns an error. -/
def fallbackResponseBytes : String :=
  "HTTP/1.1 500 Internal Server Error\r\nContent-Type: text/plain\r\nContent-Length: 21\r\n\r\nInternal Server Error"

/-- Result of `socket.accept(port)` at server.rs:106. -/
inductive AcceptResult where
  | ok
  | err
deriving DecidableEq, Repr

/-- Result of `with_timeout(read_timeout, socket.read(&mut buf))` at
server.rs:112-131: `Ok(Ok(n))` carrying the `n` bytes read, `Ok(Err(e))`,
or `Err(TimeoutError)`. -/
inductive ReadResult where
  | bytes (s : String)
  | readError
  | timedOut

/-- The log events `serve` emits (defmt calls at server.rs:107, 124,
128, 137, 140, 144). -/
inductive LogEvent where
  | acceptError
  | readError
  | readTimeout
  | writeFailed
  | flushFailed
  | handleError
deriving DecidableEq, Repr

/-- What the loop body does after finishing one connection. -/
inductive NextAction where
  | acceptNext
  | terminate
deriving DecidableEq, Repr

/-- Observable outcome of one iteration of the `serve` loop:
the byte sequences written to the socket (in order), the log events
emitted, whether the hard-coded fallback branch (server.rs:143-149) was
taken, and what the loop does next. -/
structure StepResult where
  written : List String
  logs : List LogEvent
  usedFallback : Bool
  next : NextAction
deriving Repr

/-- One iteration of the `serve` loop (server.rs:102-153), as a function
of the externally determined events: the accept result, the read result,
the handler outcome oracle, and whether `write_all` and `flush` succeed.
Accept error: warn and continue (:106-110).  Read of zero bytes:
continue silently (:118-121).  Read error / read timeout: warn and
continue (:123-130).  `handle_connection` `Ok`: write the bytes, then
flush, warning on each failure (:135-141).  `handle_connection` `Err`:
log the error and write the hard-coded fallback, ignoring write and
flush failures (:143-149).  Every branch falls through to the next loop
iteration. -/
def serve_step (accept : AcceptResult) (read : ReadResult)
    (outcome : HttpRequest → HandlerOutcome) (writeOk flushOk : Bool)
    (maxResponseSize : Nat) : StepResult :=
  match accept with
  | .err => { written := [], logs := [.acceptError], usedFallback := false, next := .acceptNext }
  | .ok =>
    match read with
    | .readError =>
      { written := [], logs := [.readError], usedFallback := false, next := .acceptNext }
    | .timedOut =>
      { written := [], logs := [.readTimeout], usedFallback := false, next := .acceptNext }
    | .bytes s =>
      if s.isEmpty then
        { written := [], logs := [], usedFallback := false, next := .acceptNext }
      else
        match handle_connection s outcome maxResponseSize with
        | .ok responseBytes =>
          { written := [responseBytes],
            logs := (if writeOk then [] else [.writeFailed])
              ++ (if flushOk then [] else [.flushFailed]),
            usedFallback := false, next := .acceptNext }
        | .error _ =>
          { written := [fallbackResponseBytes], logs := [.handleError],
            usedFallback := true, next := .acceptNext }

/-- The fixed request buffer `let mut buf = [0; REQ_SIZE]` of
server.rs:100, at its initialization. -/
def initialBuf (reqSize : Nat) : List Nat :=
  List.replicate reqSize 0

/-- Effect on the request buffer of `socket.read(&mut buf)` returning
`n = newBytes.length` (server.rs:112-114): the first `n` bytes are
overwritten with the data read, the rest of the buffer is untouched. -/
def bufAfterRead (buf newBytes : List Nat) : List Nat :=
  newBytes ++ buf.drop newBytes.length

/-- The slice `&buf[..n]` passed to `handle_connection` at
server.rs:134, after a read of `newBytes` into `buf`. -/
def requestSlice (buf newBytes : List Nat) : List Nat :=
  (bufAfterRead buf newBytes).take newBytes.length

/-- The request buffer's contents after a sequence of connections whose
reads delivered the given byte lists: the buffer is allocated and
zero-initialized once, before the loop (server.rs:98-100), and each
connection's read overwrites only its own prefix. -/
def bufAfterConnections (reqSize : Nat) (reads : List (List Nat)) : List Nat :=
  reads.foldl bufAfterRead (initialBuf reqSize)

/-- `ServerTimeouts` (server.rs:20-27): accept, read and handler
timeouts, in seconds (`u64` in the source, modelled as `Nat`). -/
structure ServerTimeouts where
  accept_timeout : Nat
  read_timeout : Nat
  handler_timeout : Nat
deriving DecidableEq, Repr

/-- `ServerTimeouts::default` (server.rs:29-37). -/
def ServerTimeouts.default : ServerTimeouts :=
  { accept_timeout := 10, read_timeout := 30, handler_timeout := 60 }

/-- `ServerTimeouts::new` (server.rs:42-48). -/
def ServerTimeouts.new (accept_timeout read_timeout handler_timeout : Nat) : ServerTimeouts :=
  { accept_timeout := accept_timeout, read_timeout := read_timeout,
    handler_timeout := handler_timeout }

/-- `HttpServer` (server.rs:56-64): port and timeouts (the four buffer
capacities are const generics and do not enter these fields). -/
structure HttpServer where
  port : Nat
  timeouts : ServerTimeouts
deriving DecidableEq, Repr

/-- `HttpServer::new` (server.rs:75-80): default timeouts. -/
def HttpServer.new (port : Nat) : HttpServer :=
  { port := port, timeouts := ServerTimeouts.default }

/-- `HttpServer::with_timeouts` (server.rs:84-86). -/
def HttpServer.with_timeouts (port : Nat) (timeouts : ServerTimeouts) : HttpServer :=
  { port := port, timeouts := timeouts }

/-- The well-formed request of spec section 8, scenario A, used as a
concrete parsed connection in several checks. -/
def scenarioARequestBytes : String := "GET / HTTP/1.1\r\nHost: x\r\n\r\n"

/-- The request scenario A parses to. -/
def scenarioAParsed : HttpRequest :=
  { method := .GET, path := "/", headers := [HttpHeader.new "Host" "x"], body := "" }

/-- A response whose serialization is longer than the 32-byte maximum
response size it is paired with in the capacity checks. -/
def oversizedResponse : HttpResponse :=
  { status_code := .OK,
    headers := [HttpHeader.new "Content-Type" "text/plain"],
    body := .Text "This body is far longer than the configured maximum response size." }

/-- C9: `ServerTimeouts::default`, used by `HttpServer::new`, yields
accept_timeout = 10 s, read_timeout = 30 s, handler_timeout = 60 s. -/
theorem default_timeouts_are_10_30_60 :
    ServerTimeouts.default.accept_timeout = 10 ∧
    ServerTimeouts.default.read_timeout = 30 ∧
    ServerTimeouts.default.handler_timeout = 60 ∧
    ∀ port : Nat, (HttpServer.new port).timeouts = ServerTimeouts.default :=
  ⟨rfl, rfl, rfl, fun _ => rfl⟩

/-- C6: a read that returns zero bytes makes `serve` end the connection
silently: no bytes are written, no log event is emitted, the loop
proceeds directly to the next accept, and the result is the same for
every handler oracle — the handler is never consulted. -/
theorem zero_byte_read_closes_silently :
    ∀ (outcome : HttpRequest → HandlerOutcome) (writeOk flushOk : Bool)
      (maxResponseSize : Nat),
      serve_step .ok (.bytes "") outcome writeOk flushOk maxResponseSize =
        { written := [], logs := [], usedFallback := false, next := .acceptNext } := by
  intro o w f N
  rfl

/-- C7: every per-connection outcome of one iteration of the `serve`
loop — accept error, read error or timeout, zero-byte read, parse
failure, handler failure or timeout, write or flush failure — leads back
to accepting the next connection; no branch terminates the loop. -/
theorem serve_loop_never_terminates :
    ∀ (accept : AcceptResult) (read : ReadResult)
      (outcome : HttpRequest → HandlerOutcome) (writeOk flushOk : Bool)
      (maxResponseSize : Nat),
      (serve_step accept read outcome writeOk flushOk maxResponseSize).next = .acceptNext := by
  intro a r o w f N
  unfold serve_step
  cases a with
  | err => rfl
  | ok =>
    cases r with
    | readError => rfl
    | timedOut => rfl
    | bytes s =>
      dsimp only
      split
      · rfl
      · split <;> rfl

/-- C8 counterexample: the request buffer is not zeroed or reinitialized
between connections.  On a server whose request buffer holds 4 bytes,
a first connection whose read delivers bytes [71, 69, 84] ("GET")
followed by a second whose read delivers [72] leaves the buffer at
[72, 69, 84, 0] while the second connection is processed: bytes 69 and
84 of the first connection's data are still present, and the buffer
differs from its initialized state. -/
theorem request_buffer_not_reinitialized :
    bufAfterConnections 4 [[71, 69, 84], [72]] = [72, 69, 84, 0] ∧
    bufAfterConnections 4 [[71, 69, 84], [72]] ≠ initialBuf 4 := by
  constructor
  · rfl
  · decide

/-- C8 (amended): the buffers are allocated and zero-initialized once,
before the loop, and reused across connections without re-zeroing, so
stale bytes of earlier connections persist in the request buffer; but
the slice passed on to request handling is exactly the bytes the current
connection's read delivered, whatever the rest of the buffer holds, so
no stale byte is ever passed to the parser or the handler. -/
theorem request_slice_only_fresh_bytes :
    ∀ (buf newBytes : List Nat), requestSlice buf newBytes = newBytes := by
  intro buf newBytes
  simp [requestSlice, bufAfterRead, List.take_left]

/-- C2: whenever request parsing fails on a nonempty read, `serve`
takes the hard-coded fallback branch and writes exactly the static 500
byte sequence, nothing else. -/
theorem parse_failure_writes_exact_fallback :
    ∀ (s : String) (outcome : HttpRequest → HandlerOutcome) (writeOk flushOk : Bool)
      (maxResponseSize : Nat) (e : Error),
      s.isEmpty = false →
      HttpRequest.try_from s = .error e →
      (serve_step .ok (.bytes s) outcome writeOk flushOk maxResponseSize).written
          = [fallbackResponseBytes] ∧
      (serve_step .ok (.bytes s) outcome writeOk flushOk maxResponseSize).usedFallback
          = true := by
  intro s o w f N e hs htf
  constructor <;> simp [serve_step, handle_connection, hs, htf]

/-- Witness for C2 at the concrete unparseable input "GARBAGE" of spec
section 8, scenario B. -/
theorem parse_failure_writes_exact_fallback_witness :
    ("GARBAGE" : String).isEmpty = false ∧
    HttpRequest.try_from "GARBAGE" = .error .ParseError ∧
    (serve_step .ok (.bytes "GARBAGE") (fun _ => .failure) true true 4096).written
      = [fallbackResponseBytes] :=
  ⟨rfl, rfl,
    (parse_failure_writes_exact_fallback "GARBAGE" (fun _ => .failure) true true 4096
      .ParseError rfl rfl).1⟩

/-- C10: `handle_connection` fails exactly when `HttpRequest::try_from`
fails, with the same error; once parsing succeeds it returns `Ok` for
every handler outcome; and on a nonempty read the fallback branch of
`serve` is taken exactly when parsing fails. -/
theorem handle_connection_fails_only_on_parse :
    ∀ (s : String) (outcome : HttpRequest → HandlerOutcome) (maxResponseSize : Nat),
      (∀ e : Error,
        handle_connection s outcome maxResponseSize = .error e ↔
          HttpRequest.try_from s = .error e) ∧
      ((∃ b, handle_connection s outcome maxResponseSize = .ok b) ↔
        (∃ r, HttpRequest.try_from s = .ok r)) ∧
      (∀ writeOk flushOk : Bool, s.isEmpty = false →
        ((serve_step .ok (.bytes s) outcome writeOk flushOk maxResponseSize).usedFallback = true
          ↔ ∃ e, HttpRequest.try_from s = .error e)) := by
  intro s o N
  cases htf : HttpRequest.try_from s with
  | error e =>
    refine ⟨?_, ?_, ?_⟩
    · intro e1
      simp [handle_connection, htf]
    · simp [handle_connection, htf]
    · intro w f hs
      simp [serve_step, handle_connection, hs, htf]
  | ok r =>
    refine ⟨?_, ?_, ?_⟩
    · intro e1
      cases ho : o r <;> simp [handle_connection, htf, ho]
    · cases ho : o r <;> simp [handle_connection, htf, ho]
    · intro w f hs
      cases ho : o r <;> simp [serve_step, handle_connection, hs, htf, ho]

/-- Witness for C10 at the concrete unparseable input "GARBAGE": the
fallback branch is taken there. -/
theorem handle_connection_fails_only_on_parse_witness :
    (serve_step .ok (.bytes "GARBAGE") (fun _ => .timeout) true true 1024).usedFallback = true :=
  ((handle_connection_fails_only_on_parse "GARBAGE" (fun _ => .timeout) 1024).2.2
    true true rfl).mpr ⟨.ParseError, rfl⟩

/-- C3: a handler invocation that exceeds the handler timeout makes the
server emit the synthesized timeout response: status 400 (Bad Request),
a single Content-Type: text/plain header, body "Request Timeout". -/
theorem handler_timeout_yields_400 :
    ∀ (s : String) (outcome : HttpRequest → HandlerOutcome) (writeOk flushOk : Bool)
      (maxResponseSize : Nat) (request : HttpRequest),
      s.isEmpty = false →
      HttpRequest.try_from s = .ok request →
      outcome request = .timeout →
      (serve_step .ok (.bytes s) outcome writeOk flushOk maxResponseSize).written
          = [handlerTimeoutResponse.build_bytes] ∧
      handlerTimeoutResponse.status_code = .BadRequest ∧
      StatusCode.BadRequest.code = 400 ∧
      handlerTimeoutResponse.headers = [HttpHeader.new "Content-Type" "text/plain"] ∧
      handlerTimeoutResponse.body = .Text "Request Timeout" := by
  intro s o w f N req hs htf ho
  refine ⟨?_, rfl, rfl, rfl, rfl⟩
  simp [serve_step, handle_connection, hs, htf, ho]

/-- Witness for C3 at the concrete request of scenario A with a handler
oracle that times out. -/
theorem handler_timeout_yields_400_witness :
    (serve_step .ok (.bytes scenarioARequestBytes) (fun _ => .timeout) true true 4096).written
      = [handlerTimeoutResponse.build_bytes] :=
  (handler_timeout_yields_400 scenarioARequestBytes (fun _ => .timeout) true true 4096
    scenarioAParsed rfl rfl rfl).1

/-- C4: a handler invocation that completes within the timeout but
returns an error makes the server emit the synthesized error response:
status 500 (Internal Server Error), a single Content-Type: text/plain
header, body "Internal Server Error". -/
theorem handler_failure_yields_500 :
    ∀ (s : String) (outcome : HttpRequest → HandlerOutcome) (writeOk flushOk : Bool)
      (maxResponseSize : Nat) (request : HttpRequest),
      s.isEmpty = false →
      HttpRequest.try_from s = .ok request →
      outcome request = .failure →
      (serve_step .ok (.bytes s) outcome writeOk flushOk maxResponseSize).written
          = [handlerErrorResponse.build_bytes] ∧
      handlerErrorResponse.status_code = .InternalServerError ∧
      StatusCode.InternalServerError.code = 500 ∧
      handlerErrorResponse.headers = [HttpHeader.new "Content-Type" "text/plain"] ∧
      handlerErrorResponse.body = .Text "Internal Server Error" := by
  intro s o w f N req hs htf ho
  refine ⟨?_, rfl, rfl, rfl, rfl⟩
  simp [serve_step, handle_connection, hs, htf, ho]

/-- Witness for C4 at the concrete request of scenario A with a handler
oracle that fails. -/
theorem handler_failure_yields_500_witness :
    (serve_step .ok (.bytes scenarioARequestBytes) (fun _ => .failure) true true 4096).written
      = [handlerErrorResponse.build_bytes] :=
  (handler_failure_yields_500 scenarioARequestBytes (fun _ => .failure) true true 4096
    scenarioAParsed rfl rfl rfl).1

/-- C1 counterexample: with a maximum response size of 32 bytes, the
serialization of `oversizedResponse` exceeds the capacity and the spec's
fail-closed Builder contract (`build_bytes_checked`) rejects it with
Overflow — yet `handle_connection` does not fail: `build_bytes` at its
call sites returns a plain byte vector, which `handle_connection` wraps
in `Ok` unconditionally, so no Overflow-class error is produced. -/
theorem oversized_response_not_rejected :
    oversizedResponse.build_bytes.length > 32 ∧
    build_bytes_checked oversizedResponse 32 = .error .Overflow ∧
    handle_connection scenarioARequestBytes (fun _ => .success oversizedResponse) 32
      = .ok oversizedResponse.build_bytes ∧
    handle_connection scenarioARequestBytes (fun _ => .success oversizedResponse) 32
      ≠ .error .Overflow := by
  have hok : handle_connection scenarioARequestBytes (fun _ => .success oversizedResponse) 32
      = .ok oversizedResponse.build_bytes := rfl
  refine ⟨by decide, ?_, hok, ?_⟩
  · rfl
  · intro h
    rw [hok] at h
    exact Except.noConfusion h

/-- C1 (amended): response-size overflow does not make the Builder path
of `handle_connection` fail.  For every successfully parsed request and
every handler outcome whose response serializes to more than the
configured maximum response size, `handle_connection` still returns
`Ok` with the full serialization: at this call site `build_bytes`
returns a plain byte vector, so no Overflow-class error reaches the
caller and the capacity bound is not enforced on this path. -/
theorem oversized_response_still_ok :
    ∀ (s : String) (outcome : HttpRequest → HandlerOutcome) (maxResponseSize : Nat)
      (request : HttpRequest),
      HttpRequest.try_from s = .ok request →
      (dispatchResponse (outcome request)).build_bytes.length > maxResponseSize →
      handle_connection s outcome maxResponseSize
        = .ok (dispatchResponse (outcome request)).build_bytes := by
  intro s o N req htf hlen
  cases ho : o req <;> simp [handle_connection, htf, ho, dispatchResponse]

/-- Witness for the amended C1 at scenario A's request, a handler
returning `oversizedResponse`, and a 32-byte maximum response size. -/
theorem oversized_response_still_ok_witness :
    HttpRequest.try_from scenarioARequestBytes = .ok scenarioAParsed ∧
    (dispatchResponse (HandlerOutcome.success oversizedResponse)).build_bytes.length > 32 ∧
    handle_connection scenarioARequestBytes (fun _ => .success oversizedResponse) 32
      = .ok (dispatchResponse (HandlerOutcome.success oversizedResponse)).build_bytes :=
  ⟨rfl, by decide,
    oversized_response_still_ok scenarioARequestBytes (fun _ => .success oversizedResponse) 32
      scenarioAParsed rfl (by decide)⟩

end Nanofish
